import Mathlib

/-!
Shallow embedding of the Go package `testerr` (ARR4N/shed, file
testerr/testerr.go) together with the fragment of the Go standard library
it relies on (`errors.Is`, `errors.As`, `fmt.Sprintf` on the verbs
actually used, `strings.Contains`), and proofs of the specification
claims about it.

Go error values are modelled by the inductive type `Err` below, covering
the dynamic error types that occur in the repository and its tests:
`*errors.errorString` (from `errors.New`), `*fmt.wrapError` (from
`fmt.Errorf` with a `%w` verb), and the test type `testerr_test.myError`.
Pointer identity of heap-allocated errors is modelled by a numeric
allocation id, so two distinct `errors.New` calls with equal messages
compare unequal, exactly as Go interface equality does.  A Go `error`
interface value (possibly nil) is `Option Err`; a Go `Want` interface
value (possibly nil) is `Option Want` where `Want` is the function type
of its single method, matching the `Func` adaptor through which every
built-in matcher is constructed.
-/

namespace Testerr

/-- Dynamic error types occurring in the repository. -/
inductive ETy where
  | errorStringT
  | wrapErrorT
  | myErrorT
deriving DecidableEq, Repr

/-- Go error values.  `errorString id msg` is the result of
`errors.New(msg)` at allocation `id`; `wrapError id msg inner` is the
result of `fmt.Errorf` with a `%w` verb, storing the fully formatted
message `msg` and the wrapped error `inner`; `myError val` is the
comparable struct type of the package tests. -/
inductive Err where
  | errorString (id : Nat) (msg : String)
  | wrapError (id : Nat) (msg : String) (inner : Err)
  | myError (val : Int)
deriving DecidableEq, Repr

/-- The dynamic type of an error value. -/
def tyOf : Err → ETy
  | .errorString .. => .errorStringT
  | .wrapError .. => .wrapErrorT
  | .myError .. => .myErrorT

/-- Reflected type names, as Go renders them with the %T verb. -/
def tyName : ETy → String
  | .errorStringT => "*errors.errorString"
  | .wrapErrorT => "*fmt.wrapError"
  | .myErrorT => "testerr_test.myError"

/-- The `Error()` method of each error type.  `myError.Error` is
`fmt.Sprintf("val %d is not good", e.val)`; the %d verb on an `int` is
its decimal rendering, which is `toString` on `Int`. -/
def errMsg : Err → String
  | .errorString _ msg => msg
  | .wrapError _ msg _ => msg
  | .myError v => "val " ++ toString v ++ " is not good"

/-- Rendering of an error interface value by the fmt %v verb: a nil
interface prints the literal token `<nil>`, a non-nil error prints its
`Error()` string. -/
def goRender : Option Err → String
  | none => "<nil>"
  | some e => errMsg e

/-- errors.Is chain walk (the `is` loop of the standard library): at
each step compare the error to the target by interface equality, then
follow `Unwrap()` when the dynamic type has that method (only
`*fmt.wrapError` does here; none of the types has a custom `Is`). -/
def isChain (t : Err) : Err → Bool
  | .wrapError i m inner => decide (Err.wrapError i m inner = t) || isChain t inner
  | .errorString i m => decide (Err.errorString i m = t)
  | .myError v => decide (Err.myError v = t)

/-- errors.Is on interface values: a nil target matches only a nil
error; otherwise a nil error matches nothing and a non-nil error is
walked along its unwrap chain. -/
def errorsIs (err target : Option Err) : Bool :=
  match target with
  | none => decide (err = none)
  | some t =>
    match err with
    | none => false
    | some e => isChain t e

/-- errors.As chain walk: at each step, if the dynamic type of the
current error is the target type, extraction succeeds with that value;
otherwise follow `Unwrap()` when available. -/
def errorsAsChain (ty : ETy) (e : Err) : Option Err :=
  if tyOf e = ty then some e
  else
    match e with
    | .wrapError _ _ inner => errorsAsChain ty inner
    | _ => none

/-- errors.As on interface values: a nil error never extracts. -/
def errorsAs (ty : ETy) (err : Option Err) : Option Err :=
  match err with
  | none => none
  | some e => errorsAsChain ty e

/-- strings.Contains helper: does `sub` occur as a contiguous run in
the character list? -/
def hasSub (sub : List Char) : List Char → Bool
  | [] => sub.isEmpty
  | c :: rest => sub.isPrefixOf (c :: rest) || hasSub sub rest

/-- strings.Contains(s, substr). -/
def strContains (s sub : String) : Bool :=
  hasSub sub.data s.data

/-- strconv escaping of one character inside a double-quoted Go string
(the printable-ASCII fragment of strconv.Quote used by the %q verb). -/
def quoteChar (c : Char) : String :=
  if c = '"' then "\\\""
  else if c = '\\' then "\\\\"
  else if c = '\n' then "\\n"
  else if c = '\t' then "\\t"
  else if c = '\r' then "\\r"
  else String.singleton c

/-- strconv.Quote, as used by the fmt %q verb on strings. -/
def goQuote (s : String) : String :=
  "\"" ++ String.join (s.data.map quoteChar) ++ "\""

/-- Arguments passed to the fmt Sprintf fragment: error interface
values, strings, and the typed zero value that the As matcher formats
with %T on extraction failure. -/
inductive GoVal where
  | err (e : Option Err)
  | str (s : String)
  | tval (ty : ETy)
deriving Repr

/-- fmt rendering of the zero value of a type with the %v verb: a nil
pointer with an Error method prints `<nil>`; the zero `myError` struct
prints its `Error()` string. -/
def zeroVRender : ETy → String
  | .errorStringT => "<nil>"
  | .wrapErrorT => "<nil>"
  | .myErrorT => errMsg (.myError 0)

/-- The fmt %v verb. -/
def vRender : GoVal → String
  | .err g => goRender g
  | .str s => s
  | .tval t => zeroVRender t

/-- The fmt %s verb (a nil interface is a bad operand for %s). -/
def sRender : GoVal → String
  | .err none => "%!s(<nil>)"
  | .err (some e) => errMsg e
  | .str s => s
  | .tval t => zeroVRender t

/-- The fmt %q verb (errors are rendered via their Error string). -/
def qRender : GoVal → String
  | .str s => goQuote s
  | .err none => "%!q(<nil>)"
  | .err (some e) => goQuote (errMsg e)
  | .tval t => goQuote (zeroVRender t)

/-- The fmt %T verb: the reflected type of the operand. -/
def typeName : GoVal → String
  | .err none => "<nil>"
  | .err (some e) => tyName (tyOf e)
  | .str _ => "string"
  | .tval t => tyName t

/-- Dispatch of a fmt verb character on one operand.  Only v, s, q and
T occur in the package; any other verb yields the fmt bad-verb form. -/
def verbFor (c : Char) (v : GoVal) : String :=
  if c = 'v' then vRender v
  else if c = 's' then sRender v
  else if c = 'q' then qRender v
  else if c = 'T' then typeName v
  else "%!" ++ String.singleton c ++ "(" ++ typeName v ++ "=" ++ vRender v ++ ")"

/-- Rendering of surplus arguments, as fmt appends them. -/
def extraArgs : List GoVal → List Char
  | [] => []
  | [v] => (typeName v).data ++ '=' :: (vRender v).data
  | v :: vs => (typeName v).data ++ '=' :: (vRender v).data ++ ',' :: ' ' :: extraArgs vs

/-- The Sprintf scan over the format characters: %% emits a literal
percent, a verb consumes one argument, a missing argument or a trailing
percent yields the fmt error forms, leftover arguments are appended as
EXTRA. -/
def sprintfAux : List Char → List GoVal → List Char
  | [], [] => []
  | [], v :: vs => "%!(EXTRA ".data ++ extraArgs (v :: vs) ++ [')']
  | '%' :: '%' :: rest, args => '%' :: sprintfAux rest args
  | '%' :: c :: rest, v :: args => (verbFor c v).data ++ sprintfAux rest args
  | '%' :: c :: rest, [] => '%' :: '!' :: c :: "(MISSING)".data ++ sprintfAux rest []
  | ['%'], args => "%!(NOVERB)".data ++ sprintfAux [] args
  | c :: rest, args => c :: sprintfAux rest args

/-- fmt.Sprintf on the modelled fragment. -/
def sprintf (format : String) (args : List GoVal) : String :=
  ⟨sprintfAux format.data args⟩

/-- A Want is the single-method interface `ErrDiff(got error) string`;
every built-in matcher is a `Func`, so a Want value is just its
function. -/
def Want : Type := Option Err → String

/-- DiffMessage constructs the canonical diff message:
`format := fmt.Sprintf("got error %%v; want %s", wantFormat)` followed
by `fmt.Sprintf(format, append([]any\x7bgot\x7d, a...)...)`. -/
def DiffMessage (got : Option Err) (wantFormat : String) (a : List GoVal) : String :=
  sprintf (sprintf "got error %%v; want %s" [.str wantFormat]) (.err got :: a)

/-- Diff compares the error with what is wanted; a nil Want corresponds
to a nil error. -/
def Diff (got : Option Err) (want : Option Want) : String :=
  match want with
  | none =>
    if got = none then "" else DiffMessage got "nil" []
  | some w => w got

/-- Is checks that the got error errors.Is the target. -/
def Is (target : Option Err) : Want := fun got =>
  if errorsIs got target then "" else DiffMessage got "error that Is() %v" [.err target]

/-- As creates a new T and checks that the got error can be unwrapped
via errors.As to said type; the unwrapped error is passed to matchFn. -/
def As (ty : ETy) (matchFn : Err → String) : Want := fun got =>
  match errorsAs ty got with
  | none => DiffMessage got "error tree containing type %T" [.tval ty]
  | some target =>
    if matchFn target = "" then "" else DiffMessage got "%s" [.str (matchFn target)]

/-- Equals checks that got == want (interface equality). -/
def Equals (want : Option Err) : Want := fun got =>
  if got = want then "" else DiffMessage got "== %v" [.err want]

/-- Contains checks that the got error's string contains the substring;
the nil check short-circuits before Error() is called. -/
def Contains (substr : String) : Want := fun got =>
  match got with
  | none => DiffMessage none "containing substring %q" [.str substr]
  | some e =>
    if strContains (errMsg e) substr then "" else
      DiffMessage (some e) "containing substring %q" [.str substr]

/-! Concrete error values mirroring the package example test. -/

/-- errors.New("uh oh") at allocation 0. -/
def errUhOh : Err := .errorString 0 "uh oh"

/-- fmt.Errorf wrapping errUhOh, at allocation 1. -/
def errWrapped : Err := .wrapError 1 "wrapped(uh oh)" errUhOh

/-- errors.New("something else") at allocation 2. -/
def errOther : Err := .errorString 2 "something else"

/-- The refinement function of the example test: accept a myError with
val 42, otherwise complain. -/
def match42 : Err → String
  | .myError v => if v = 42 then "" else "42 (of course)"
  | _ => ""

/-- The As expectation of the example test. -/
def want42 : Want := As .myErrorT match42

example : Diff none none = "" := rfl
example : Diff (some errUhOh) none = "got error uh oh; want nil" := by decide
example : Diff (some errUhOh) (some (Equals (some errUhOh))) = "" := by decide
example : Diff (some errWrapped) (some (Equals (some errUhOh))) =
    "got error wrapped(uh oh); want == uh oh" := by decide
example : Diff (some errWrapped) (some (Is (some errUhOh))) = "" := by decide
example : Diff (some errUhOh) (some (Is (some errUhOh))) = "" := by decide
example : Diff (some errOther) (some (Is (some errUhOh))) =
    "got error something else; want error that Is() uh oh" := by decide
example : Diff (some errUhOh) (some (Contains "uh")) = "" := by decide
example : Diff (some errUhOh) (some (Contains "foobar")) =
    "got error uh oh; want containing substring \"foobar\"" := by decide
example : Diff none (some (Contains "")) =
    "got error <nil>; want containing substring \"\"" := by decide
example : Diff (some (.myError 42)) (some want42) = "" := by decide
example : Diff (some (.myError 43)) (some want42) =
    "got error val 43 is not good; want 42 (of course)" := by decide
example : Diff (some errUhOh) (some want42) =
    "got error uh oh; want error tree containing type testerr_test.myError" := by decide

/-! Helper lemmas about the Sprintf fragment and the canonical message
shape.  String appends in these lemmas are written right-associated so
that both sides reduce to the same cons-chain of characters. -/

/-- The first Sprintf pass inside DiffMessage escapes the doubled
percent and splices the want format after the fixed preamble. -/
lemma first_pass (fmt : String) :
    sprintf "got error %%v; want %s" [.str fmt]
      = ⟨"got error %v; want ".data ++ fmt.data⟩ := by
  apply congrArg String.mk
  show "got error %v; want ".data ++ (fmt.data ++ []) = "got error %v; want ".data ++ fmt.data
  simp

/-- The second Sprintf pass renders the got error with %v and leaves
the residual want format to a recursive scan. -/
lemma second_pass (l : List Char) (g : Option Err) (a : List GoVal) :
    sprintfAux ("got error %v; want ".data ++ l) (.err g :: a)
      = "got error ".data ++ ((goRender g).data ++ ("; want ".data ++ sprintfAux l a)) :=
  rfl

/-- Every DiffMessage has the canonical shape. -/
lemma DiffMessage_shape (got : Option Err) (fmt : String) (a : List GoVal) :
    DiffMessage got fmt a
      = "got error " ++ (goRender got ++ ("; want " ++ sprintf fmt a)) := by
  unfold DiffMessage
  rw [first_pass]
  show String.mk (sprintfAux ("got error %v; want ".data ++ fmt.data) (.err got :: a)) = _
  rw [second_pass]
  rfl

/-- No DiffMessage is the empty string. -/
lemma DiffMessage_ne_empty (got : Option Err) (fmt : String) (a : List GoVal) :
    DiffMessage got fmt a ≠ "" := by
  rw [DiffMessage_shape]
  intro h
  have h2 := congrArg String.length h
  have h10 : "got error ".length = 10 := rfl
  simp [String.length_append, h10] at h2

/-- Sprintf on a bare %s returns the argument verbatim. -/
lemma sprintf_str (d : String) : sprintf "%s" [.str d] = d := by
  apply String.ext
  show d.data ++ [] = d.data
  simp

/-- Sprintf for the Is mismatch format. -/
lemma sprintf_isF (t : Option Err) :
    sprintf "error that Is() %v" [.err t] = "error that Is() " ++ goRender t := by
  apply String.ext
  show "error that Is() ".data ++ ((goRender t).data ++ []) = _
  rw [String.data_append]
  simp

/-- Sprintf for the Equals mismatch format. -/
lemma sprintf_eqF (w : Option Err) :
    sprintf "== %v" [.err w] = "== " ++ goRender w := by
  apply String.ext
  show "== ".data ++ ((goRender w).data ++ []) = _
  rw [String.data_append]
  simp

/-- Sprintf for the Contains mismatch format. -/
lemma sprintf_qF (s : String) :
    sprintf "containing substring %q" [.str s]
      = "containing substring " ++ goQuote s := by
  apply String.ext
  show "containing substring ".data ++ ((goQuote s).data ++ []) = _
  rw [String.data_append]
  simp

/-- Sprintf for the As extraction-failure format. -/
lemma sprintf_TF (ty : ETy) :
    sprintf "error tree containing type %T" [.tval ty]
      = "error tree containing type " ++ tyName ty := by
  apply String.ext
  show "error tree containing type ".data ++ ((tyName ty).data ++ []) = _
  rw [String.data_append]
  simp

/-- The unwrap chain of an error: the error itself followed by
everything reachable by repeated Unwrap() calls. -/
def unwrapChain : Err → List Err
  | .wrapError i m inner => Err.wrapError i m inner :: unwrapChain inner
  | .errorString i m => [.errorString i m]
  | .myError v => [.myError v]

/-- The errors.Is walk accepts exactly the members of the unwrap chain. -/
lemma isChain_iff_mem (t e : Err) : isChain t e = true ↔ t ∈ unwrapChain e := by
  induction e with
  | wrapError i m inner ih =>
    simp only [isChain, unwrapChain, Bool.or_eq_true, decide_eq_true_eq,
      List.mem_cons, ih]
    exact or_congr eq_comm Iff.rfl
  | errorString i m =>
    simp only [isChain, unwrapChain, decide_eq_true_eq, List.mem_singleton]
    exact eq_comm
  | myError v =>
    simp only [isChain, unwrapChain, decide_eq_true_eq, List.mem_singleton]
    exact eq_comm

/-- The errors.As walk fails exactly when no chain member has the
requested dynamic type. -/
lemma errorsAsChain_eq_none_iff (ty : ETy) (e : Err) :
    errorsAsChain ty e = none ↔ ∀ x ∈ unwrapChain e, tyOf x ≠ ty := by
  induction e with
  | wrapError i m inner ih =>
    by_cases h : tyOf (Err.wrapError i m inner) = ty
    · simp [errorsAsChain, unwrapChain, h]
    · simp [errorsAsChain, unwrapChain, h, ih]
  | errorString i m =>
    by_cases h : tyOf (Err.errorString i m) = ty
    · simp [errorsAsChain, unwrapChain, h]
    · simp [errorsAsChain, unwrapChain, h]
  | myError v =>
    by_cases h : tyOf (Err.myError v) = ty
    · simp [errorsAsChain, unwrapChain, h]
    · simp [errorsAsChain, unwrapChain, h]

/-- The empty substring occurs in every string. -/
lemma hasSub_nil (l : List Char) : hasSub [] l = true := by
  induction l with
  | nil => rfl
  | cons c rest ih => simp [hasSub, ih, List.isPrefixOf]

/-- A wrapping error is never interface-equal to the error it wraps. -/
lemma wrap_ne (i : Nat) (m : String) (e : Err) : Err.wrapError i m e ≠ e := by
  intro h
  have h2 := congrArg sizeOf h
  simp at h2

/-- The canonical diagnostic shape of §4.1 of the specification. -/
def canonicalDiag (got : Option Err) (r : String) : Prop :=
  ∃ d, r = "got error " ++ (goRender got ++ ("; want " ++ d))

/-- Every DiffMessage satisfies the canonical shape. -/
lemma canonicalDiag_DiffMessage (got : Option Err) (fmt : String) (a : List GoVal) :
    canonicalDiag got (DiffMessage got fmt a) :=
  ⟨sprintf fmt a, DiffMessage_shape got fmt a⟩

/-- Every error heads its own unwrap chain. -/
lemma self_mem_unwrapChain (e : Err) : e ∈ unwrapChain e := by
  cases e <;> simp [unwrapChain]

/-- C1: with a nil Want, Diff returns the empty string exactly when the
got error is nil; a non-nil got error yields the DiffMessage diagnostic
with wanted-description literal "nil", that is the string
"got error <rendering of got>; want nil". -/
theorem claim1_diff_nil_want :
    Diff none none = ""
    ∧ (∀ e : Err,
        Diff (some e) none = DiffMessage (some e) "nil" []
        ∧ Diff (some e) none = "got error " ++ (errMsg e ++ "; want nil")
        ∧ Diff (some e) none ≠ "") := by
  refine ⟨rfl, fun e => ⟨rfl, ?_, ?_⟩⟩
  · show DiffMessage (some e) "nil" [] = _
    rw [DiffMessage_shape]
    rfl
  · show DiffMessage (some e) "nil" [] ≠ ""
    exact DiffMessage_ne_empty _ _ _

theorem claim1_witness : Diff (some errUhOh) none ≠ "" :=
  (claim1_diff_nil_want.2 errUhOh).2.2

/-- C2: As evaluates as a three-way case split.  Extraction fails
exactly when no member of the unwrap chain has the requested dynamic
type, and then the result is the "error tree containing type"
diagnostic regardless of matchFn; on extraction success the extracted
value is passed to matchFn, an empty return gives an overall match, and
a non-empty return d gives a diagnostic whose want clause is exactly d,
not further wrapped. -/
theorem claim2_as_three_way :
    ∀ (ty : ETy) (matchFn : Err → String) (got : Option Err),
      (errorsAs ty got = none ↔ ∀ e, got = some e → ∀ x ∈ unwrapChain e, tyOf x ≠ ty)
      ∧ (errorsAs ty got = none →
          As ty matchFn got
            = "got error "
                ++ (goRender got ++ ("; want error tree containing type " ++ tyName ty)))
      ∧ (∀ e, errorsAs ty got = some e → matchFn e = "" → As ty matchFn got = "")
      ∧ (∀ e, errorsAs ty got = some e → matchFn e ≠ "" →
          As ty matchFn got = "got error " ++ (goRender got ++ ("; want " ++ matchFn e))) := by
  intro ty matchFn got
  refine ⟨?_, ?_, ?_, ?_⟩
  · cases got with
    | none => simp [errorsAs]
    | some e => simpa [errorsAs] using errorsAsChain_eq_none_iff ty e
  · intro h
    simp only [As, h]
    rw [DiffMessage_shape, sprintf_TF]
    rfl
  · intro e he hm
    simp only [As, he, hm]
    simp
  · intro e he hm
    simp only [As, he]
    rw [if_neg hm]
    rw [DiffMessage_shape, sprintf_str]

theorem claim2_witness :
    As .myErrorT match42 (some errUhOh)
      = "got error "
          ++ (goRender (some errUhOh)
              ++ ("; want error tree containing type " ++ tyName .myErrorT)) :=
  (claim2_as_three_way .myErrorT match42 (some errUhOh)).2.1 rfl

/-- C3: Is(t) matches exactly the errors whose unwrap chain contains t:
the direct target is matched, wrapping the target is matched, and an
unrelated error with the very same message but a different allocation is
not; on mismatch the want clause is "error that Is() <target>". -/
theorem claim3_is_spec :
    ∀ (t : Err) (got : Option Err),
      (Is (some t) got = "" ↔ ∃ e, got = some e ∧ t ∈ unwrapChain e)
      ∧ (errorsIs got (some t) = false →
          Is (some t) got
            = "got error " ++ (goRender got ++ ("; want error that Is() " ++ errMsg t)))
      ∧ Is (some t) (some t) = ""
      ∧ (∀ (i : Nat) (m : String) (inner : Err),
          Is (some t) (some inner) = "" →
          Is (some t) (some (Err.wrapError i m inner)) = "")
      ∧ Is (some errUhOh) (some (Err.errorString 3 "uh oh")) ≠ "" := by
  intro t got
  refine ⟨⟨?_, ?_⟩, ?_, ?_, ?_, by decide⟩
  · intro h
    by_cases hb : errorsIs got (some t) = true
    · cases got with
      | none => simp [errorsIs] at hb
      | some e => exact ⟨e, rfl, (isChain_iff_mem t e).1 hb⟩
    · exfalso
      simp only [Is] at h
      rw [if_neg hb] at h
      exact absurd h (DiffMessage_ne_empty _ _ _)
  · rintro ⟨e, rfl, hm⟩
    have hb : errorsIs (some e) (some t) = true := (isChain_iff_mem t e).2 hm
    simp [Is, hb]
  · intro hb
    simp only [Is]
    rw [if_neg (by simp [hb])]
    rw [DiffMessage_shape, sprintf_isF]
    rfl
  · have hb : errorsIs (some t) (some t) = true :=
      (isChain_iff_mem t t).2 (self_mem_unwrapChain t)
    simp [Is, hb]
  · intro i m inner h
    have hb : isChain t inner = true := by
      by_contra hb
      have hb2 : ¬errorsIs (some inner) (some t) = true := hb
      simp only [Is] at h
      rw [if_neg hb2] at h
      exact absurd h (DiffMessage_ne_empty _ _ _)
    have hb2 : errorsIs (some (Err.wrapError i m inner)) (some t) = true := by
      show isChain t (Err.wrapError i m inner) = true
      simp [isChain, hb]
    simp [Is, hb2]

theorem claim3_witness :
    Is (some errUhOh) (some errOther)
      = "got error "
          ++ (goRender (some errOther) ++ ("; want error that Is() " ++ errMsg errUhOh)) :=
  (claim3_is_spec errUhOh (some errOther)).2.1 (by decide)

/-- C4: Contains(s) matches exactly the non-nil errors whose rendering
contains s; the empty substring matches every non-nil error and no nil
error; on mismatch the want clause is "containing substring " followed
by the quoted substring; and on a nil error with the empty substring the
full diagnostic is the literal of the example test. -/
theorem claim4_contains_spec :
    (∀ (substr : String) (got : Option Err),
      (Contains substr got = "" ↔ ∃ e, got = some e ∧ strContains (errMsg e) substr = true)
      ∧ (Contains substr got ≠ "" →
          Contains substr got
            = "got error "
                ++ (goRender got ++ ("; want containing substring " ++ goQuote substr)))
      ∧ Contains substr none ≠ "")
    ∧ (∀ e : Err, Contains "" (some e) = "")
    ∧ Diff none (some (Contains ""))
        = "got error <nil>; want containing substring \"\"" := by
  refine ⟨?_, ?_, by decide⟩
  · intro substr got
    refine ⟨⟨?_, ?_⟩, ?_, ?_⟩
    · intro h
      cases got with
      | none =>
        exact absurd h (DiffMessage_ne_empty none "containing substring %q" [.str substr])
      | some e =>
        by_cases hc : strContains (errMsg e) substr = true
        · exact ⟨e, rfl, hc⟩
        · exfalso
          simp only [Contains] at h
          rw [if_neg hc] at h
          exact absurd h (DiffMessage_ne_empty _ _ _)
    · rintro ⟨e, rfl, hc⟩
      simp [Contains, hc]
    · intro hne
      cases got with
      | none =>
        show DiffMessage none "containing substring %q" [.str substr] = _
        rw [DiffMessage_shape, sprintf_qF]
        rfl
      | some e =>
        by_cases hc : strContains (errMsg e) substr = true
        · exact absurd (by simp [Contains, hc]) hne
        · simp only [Contains]
          rw [if_neg hc]
          rw [DiffMessage_shape, sprintf_qF]
          rfl
    · show DiffMessage none "containing substring %q" [.str substr] ≠ ""
      exact DiffMessage_ne_empty _ _ _
  · intro e
    have hc : strContains (errMsg e) "" = true := hasSub_nil _
    simp [Contains, hc]

theorem claim4_witness :
    Contains "foobar" (some errUhOh)
      = "got error "
          ++ (goRender (some errUhOh)
              ++ ("; want containing substring " ++ goQuote "foobar")) :=
  ((claim4_contains_spec.1 "foobar" (some errUhOh)).2.1) (by decide)

/-- C5: Equals(w) matches exactly when the got error is interface-equal
to w; an error that merely wraps w does not match; on mismatch the want
clause is "== <parameter>". -/
theorem claim5_equals_spec :
    ∀ (w got : Option Err),
      (Equals w got = "" ↔ got = w)
      ∧ (got ≠ w →
          Equals w got = "got error " ++ (goRender got ++ ("; want == " ++ goRender w)))
      ∧ (∀ (i : Nat) (m : String) (e : Err),
          Equals (some e) (some (Err.wrapError i m e)) ≠ "") := by
  intro w got
  refine ⟨⟨?_, ?_⟩, ?_, ?_⟩
  · intro h
    by_cases he : got = w
    · exact he
    · exfalso
      simp only [Equals] at h
      rw [if_neg he] at h
      exact absurd h (DiffMessage_ne_empty _ _ _)
  · intro h
    simp [Equals, h]
  · intro he
    simp only [Equals]
    rw [if_neg he]
    rw [DiffMessage_shape, sprintf_eqF]
    rfl
  · intro i m e
    have hne : (some (Err.wrapError i m e) : Option Err) ≠ some e := by
      intro hh
      injection hh with hh2
      exact wrap_ne i m e hh2
    simp only [Equals]
    rw [if_neg hne]
    exact DiffMessage_ne_empty _ _ _

theorem claim5_witness :
    Equals (some errUhOh) (some errWrapped)
      = "got error "
          ++ (goRender (some errWrapped) ++ ("; want == " ++ goRender (some errUhOh))) :=
  (claim5_equals_spec (some errUhOh) (some errWrapped)).2.1 (by decide)

/-- C6: DiffMessage is a total string construction returning exactly
"got error ", then the rendering of the got error (a nil error
rendering as the literal token given by goRender none), then "; want ",
then the want format with the arguments substituted in order. -/
theorem claim6_diffmessage_canonical :
    (∀ (got : Option Err) (wantFormat : String) (a : List GoVal),
        DiffMessage got wantFormat a
          = "got error " ++ (goRender got ++ ("; want " ++ sprintf wantFormat a)))
      ∧ goRender none = "<nil>" :=
  ⟨DiffMessage_shape, rfl⟩

/-- C7 counterexample: the claim asserts that Diff of a nil got error
against every built-in expectation with any parameters is non-empty,
but Equals with a nil parameter and Is with a nil target both accept a
nil got error. -/
theorem claim7_counterexample :
    Diff none (some (Equals none)) = "" ∧ Diff none (some (Is none)) = "" :=
  ⟨rfl, rfl⟩

/-- C7 amended: Diff(nil, nil) is empty; Diff(got, nil) is non-empty
for non-nil got; Diff(nil, expectation) is non-empty for Contains and
As with any parameters and for Equals and Is with a non-nil parameter;
Equals(nil) and Is(nil) accept a nil got error. -/
theorem claim7_absence_symmetry :
    Diff none none = ""
    ∧ (∀ e : Err, Diff (some e) none ≠ "")
    ∧ (∀ w : Err, Diff none (some (Equals (some w))) ≠ "")
    ∧ (∀ t : Err, Diff none (some (Is (some t))) ≠ "")
    ∧ (∀ s : String, Diff none (some (Contains s)) ≠ "")
    ∧ (∀ (ty : ETy) (matchFn : Err → String), Diff none (some (As ty matchFn)) ≠ "")
    ∧ Diff none (some (Equals none)) = ""
    ∧ Diff none (some (Is none)) = "" := by
  refine ⟨rfl, ?_, ?_, ?_, ?_, ?_, rfl, rfl⟩
  · intro e
    exact DiffMessage_ne_empty (some e) "nil" []
  · intro w
    exact DiffMessage_ne_empty none "== %v" [.err (some w)]
  · intro t
    exact DiffMessage_ne_empty none "error that Is() %v" [.err (some t)]
  · intro s
    exact DiffMessage_ne_empty none "containing substring %q" [.str s]
  · intro ty matchFn
    exact DiffMessage_ne_empty none "error tree containing type %T" [.tval ty]

theorem claim7_witness : Diff (some errUhOh) none ≠ "" :=
  claim7_absence_symmetry.2.1 errUhOh

/-- C8 counterexample: with the role assignment the claim states — the
observed error rendering "uh oh" and the Equals parameter being the
wrapped error rendering "wrapped(uh oh)" — the diagnostic is
"got error uh oh; want == wrapped(uh oh)", not the claimed string. -/
theorem claim8_counterexample :
    errMsg errUhOh = "uh oh"
    ∧ errMsg errWrapped = "wrapped(uh oh)"
    ∧ Diff (some errUhOh) (some (Equals (some errWrapped)))
        = "got error uh oh; want == wrapped(uh oh)"
    ∧ Diff (some errUhOh) (some (Equals (some errWrapped)))
        ≠ "got error wrapped(uh oh); want == uh oh" := by
  refine ⟨rfl, rfl, by decide, by decide⟩

/-- C8 amended: in the literal scenario of the example test the
observed error is the wrapping error rendering "wrapped(uh oh)" and the
Equals parameter renders "uh oh"; the diagnostic is exactly
"got error wrapped(uh oh); want == uh oh". -/
theorem claim8_literal_scenario :
    Diff (some errWrapped) (some (Equals (some errUhOh)))
        = "got error wrapped(uh oh); want == uh oh"
      ∧ errMsg errWrapped = "wrapped(uh oh)"
      ∧ errMsg errUhOh = "uh oh" :=
  ⟨by decide, rfl, rfl⟩

/-- C9: every non-empty string returned by Diff with a nil Want or by a
built-in matcher has the canonical DiffMessage shape
"got error <rendering>; want <description>". -/
theorem claim9_diag_uniformity :
    ∀ (got : Option Err),
      (Diff got none ≠ "" → canonicalDiag got (Diff got none))
      ∧ (∀ w, Equals w got ≠ "" → canonicalDiag got (Equals w got))
      ∧ (∀ t, Is t got ≠ "" → canonicalDiag got (Is t got))
      ∧ (∀ s, Contains s got ≠ "" → canonicalDiag got (Contains s got))
      ∧ (∀ ty matchFn, As ty matchFn got ≠ "" → canonicalDiag got (As ty matchFn got)) := by
  intro got
  refine ⟨?_, ?_, ?_, ?_, ?_⟩
  · intro h
    cases got with
    | none => exact absurd rfl h
    | some e => exact canonicalDiag_DiffMessage (some e) "nil" []
  · intro w h
    by_cases he : got = w
    · exact absurd (by simp [Equals, he]) h
    · have hq : Equals w got = DiffMessage got "== %v" [.err w] := by
        simp only [Equals]
        rw [if_neg he]
      rw [hq]
      exact canonicalDiag_DiffMessage _ _ _
  · intro t h
    by_cases hb : errorsIs got t = true
    · exact absurd (by simp [Is, hb]) h
    · have hq : Is t got = DiffMessage got "error that Is() %v" [.err t] := by
        simp only [Is]
        rw [if_neg hb]
      rw [hq]
      exact canonicalDiag_DiffMessage _ _ _
  · intro s h
    cases got with
    | none => exact canonicalDiag_DiffMessage none "containing substring %q" [.str s]
    | some e =>
      by_cases hc : strContains (errMsg e) s = true
      · exact absurd (by simp [Contains, hc]) h
      · have hq : Contains s (some e)
            = DiffMessage (some e) "containing substring %q" [.str s] := by
          simp only [Contains]
          rw [if_neg hc]
        rw [hq]
        exact canonicalDiag_DiffMessage _ _ _
  · intro ty matchFn h
    cases hE : errorsAs ty got with
    | none =>
      have hq : As ty matchFn got
          = DiffMessage got "error tree containing type %T" [.tval ty] := by
        simp only [As, hE]
      rw [hq]
      exact canonicalDiag_DiffMessage _ _ _
    | some target =>
      by_cases hm : matchFn target = ""
      · exact absurd (by simp [As, hE, hm]) h
      · have hq : As ty matchFn got = DiffMessage got "%s" [.str (matchFn target)] := by
          simp only [As, hE]
          rw [if_neg hm]
        rw [hq]
        exact canonicalDiag_DiffMessage _ _ _

theorem claim9_witness : canonicalDiag none (Contains "" none) :=
  (claim9_diag_uniformity none).2.2.2.1 "" (by decide)

/-- C10: passing a nil parameter to Equals or Is yields an expectation
that accepts the absence of an error. -/
theorem claim10_nil_parameter_accepts_nil :
    Equals none none = ""
    ∧ Is none none = ""
    ∧ Diff none (some (Equals none)) = ""
    ∧ Diff none (some (Is none)) = "" :=
  ⟨rfl, rfl, rfl, rfl⟩

end Testerr
